import Mathlib

/-
Verification of the tactical trend-following rebalance policy implemented in
src/strategies/hybrid_momentum_reversion_strategy.py.

The development shallowly embeds the strategy's decision logic: prices and
broker quantities are exact rationals, the per-instrument decision function
and the per-bar simulation step are executable Lean functions translated
line by line from the Python source.  Python float arithmetic is modelled
by exact rational arithmetic; Python's int() truncation is modelled by
pyInt; a Python ZeroDivisionError is modelled by an Option-valued result.
-/

/-- Per-instrument stance tracked in position_states:
'none' (never entered), 'long', or 'cash' (strategy line 70). -/
inductive Stance where
  | flatNone
  | long
  | cash
deriving DecidableEq

/-- An instruction submitted to the broker: self.close(data=...) or
self.buy(data=..., size=...). -/
inductive BrokerAction where
  | closePos
  | buy (size : ℤ)
deriving DecidableEq

/-- Strategy parameters (the params tuple, strategy lines 20-39). -/
structure Params where
  trendPeriod : ℕ
  momentumPeriod : ℕ
  rebalanceDays : ℕ
  positionSize : ℚ
  cashReserve : ℚ
  entryThreshold : ℚ
  exitThreshold : ℚ
  volatilityLookback : ℕ
  targetVolatility : ℚ
deriving DecidableEq

/-- Default parameter values from the params tuple. -/
def defaultParams : Params :=
  { trendPeriod := 200
    momentumPeriod := 60
    rebalanceDays := 20
    positionSize := 95 / 100
    cashReserve := 5 / 100
    entryThreshold := 101 / 100
    exitThreshold := 99 / 100
    volatilityLookback := 60
    targetVolatility := 15 / 100 }

/-- Python's int() applied to an exact rational: truncation toward zero. -/
def pyInt (q : ℚ) : ℤ := if 0 ≤ q then ⌊q⌋ else ⌈q⌉

/-- Simple moving average of the last period closes ending at bar t,
modelling bt.indicators.SMA(data.close, period=trend_period)
(strategy line 55): the arithmetic mean of closes t, t-1, ..., t-period+1. -/
def sma (closes : ℕ → ℚ) (period t : ℕ) : ℚ :=
  (∑ j ∈ Finset.range period, closes (t - j)) / (period : ℚ)

/-- Rate-of-change momentum, modelling bt.indicators.ROC(data.close,
period=momentum_period) (strategy line 59).  backtrader's RateOfChange
line is (data - data(-period)) / data(-period), a plain ratio; the
percentage variant is backtrader's separate RateOfChange100 indicator,
which the source does not use. -/
def roc (closes : ℕ → ℚ) (period t : ℕ) : ℚ :=
  (closes t - closes (t - period)) / closes (t - period)

/-- Modelled from the spec (section 4.1): momentum(period) as the
percentage rate of change, (close[0] - close[-period]) / close[-period] * 100.
Kept separate from roc so the two can be compared: the source delegates the
momentum computation to the external backtrader ROC indicator. -/
def momentumSpec (closes : ℕ → ℚ) (period t : ℕ) : ℚ :=
  (closes t - closes (t - period)) / closes (t - period) * 100

/-- Position size computed inside _enter_long_position (strategy lines
130-133): max_positions = min(20, len(self.datas));
target_allocation = total_value / max_positions;
target_shares = int(target_allocation * 0.95 / price).
The 0.95 investable fraction is the literal written at line 133. -/
def targetShares (totalValue : ℚ) (numDatas : ℕ) (price : ℚ) : ℤ :=
  pyInt (totalValue / ((min 20 numDatas : ℕ) : ℚ) * (95 / 100) / price)

/-- The same sizing computation with Python's ZeroDivisionError made
explicit: division by max_positions = 0 (no instruments) or by price = 0
raises in the source rather than producing a share count. -/
def sizeResult (totalValue : ℚ) (numDatas : ℕ) (price : ℚ) : Option ℤ :=
  if min 20 numDatas = 0 ∨ price = 0 then Option.none
  else Option.some (targetShares totalValue numDatas price)

/-- bullish_trend = current_price > trend_ma * entry_threshold
(strategy line 100). -/
def bullishTrend (p : Params) (close ma : ℚ) : Bool :=
  decide (ma * p.entryThreshold < close)

/-- bearish_trend = current_price < trend_ma * exit_threshold
(strategy line 101). -/
def bearishTrend (p : Params) (close ma : ℚ) : Bool :=
  decide (close < ma * p.exitThreshold)

/-- should_be_long = bullish_trend and positive_momentum
(strategy lines 104-107). -/
def shouldBeLong (p : Params) (close ma mom : ℚ) : Bool :=
  bullishTrend p close ma && decide ((0 : ℚ) < mom)

/-- should_be_cash = bearish_trend or momentum < -5 (strategy line 108). -/
def shouldBeCash (p : Params) (close ma mom : ℚ) : Bool :=
  bearishTrend p close ma || decide (mom < (-5 : ℚ))

/-- _enter_long_position (strategy lines 119-140): close any stray held
position, compute target_shares, and only when target_shares > 0 submit
the buy and set the stance to long; otherwise the stance is untouched. -/
def enterLongPosition (posSize : ℤ) (stance : Stance) (price totalValue : ℚ)
    (numDatas : ℕ) : List BrokerAction × Stance :=
  let strayClose : List BrokerAction := if 0 < posSize then [BrokerAction.closePos] else []
  let ts : ℤ := targetShares totalValue numDatas price
  if 0 < ts then (strayClose ++ [BrokerAction.buy ts], Stance.long)
  else (strayClose, stance)

/-- _exit_to_cash (strategy lines 142-148): only when shares are held is
the position closed and the stance set to cash; with zero held shares the
body of the if is skipped and the stance is untouched. -/
def exitToCash (posSize : ℤ) (stance : Stance) : List BrokerAction × Stance :=
  if 0 < posSize then ([BrokerAction.closePos], Stance.cash) else ([], stance)

/-- _rebalance_position (strategy lines 89-117): the decision function.
Returns the submitted broker actions and the updated stance. -/
def rebalancePosition (p : Params) (close ma mom : ℚ) (posSize : ℤ)
    (stance : Stance) (totalValue : ℚ) (numDatas : ℕ) : List BrokerAction × Stance :=
  if shouldBeLong p close ma mom
      && (decide (posSize = 0) || decide (stance = Stance.cash)) then
    enterLongPosition posSize stance close totalValue numDatas
  else if shouldBeCash p close ma mom
      && (decide (0 < posSize) || decide (stance = Stance.long)) then
    exitToCash posSize stance
  else ([], stance)

/-- One instrument's slice of next() (strategy lines 74-82) together with
_should_rebalance (lines 84-87): skip on insufficient history
(len(data) < trend_period), otherwise rebalance when
len(self) - last_rebalance >= rebalance_days, recording the new
last_rebalance.  Returns (actions, new stance, new last_rebalance). -/
def nextInstrument (p : Params) (lenData lenSelf lastReb : ℕ)
    (close ma mom : ℚ) (posSize : ℤ) (stance : Stance) (totalValue : ℚ)
    (numDatas : ℕ) : List BrokerAction × Stance × ℕ :=
  if lenData < p.trendPeriod then ([], stance, lastReb)
  else if (p.rebalanceDays : ℤ) ≤ (lenSelf : ℤ) - (lastReb : ℤ) then
    let r := rebalancePosition p close ma mom posSize stance totalValue numDatas
    (r.1, r.2, lenSelf)
  else ([], stance, lastReb)

/-- Per-instrument mutable state held by the strategy: position_states[i]
and last_rebalance[i] (strategy lines 44-70). -/
structure InstrState where
  stance : Stance
  lastReb : ℕ
deriving DecidableEq

/-- Initial per-instrument states (strategy lines 67-70): every
last_rebalance is 0 and every stance is 'none'. -/
def initStates (numDatas : ℕ) : List InstrState :=
  List.replicate numDatas { stance := Stance.flatNone, lastReb := 0 }

/-- Minimum warm-up before backtrader first calls next(): the largest
minimum period of the indicators built in the constructor.  SMA needs
trend_period bars, ROC needs momentum_period + 1 (it reads
data(-period)), StdDev needs volatility_lookback. -/
def minPeriod (p : Params) : ℕ :=
  max (max p.trendPeriod (p.momentumPeriod + 1)) p.volatilityLookback

/-- A position-close notification from the broker, the trade object
received by notify_trade (strategy lines 163-189).  pnl is gross profit
and loss, pnlcomm is profit and loss net of commission; value is the
position value at entry, price the entry price. -/
structure TradeEvent where
  isclosed : Bool
  pnl : ℚ
  pnlcomm : ℚ
  value : ℚ
  price : ℚ
  size : ℚ
  dtopen : ℚ
  dtclose : ℚ
  dataName : ℕ
deriving DecidableEq

/-- One record appended to self.trades (strategy lines 175-185). -/
structure TradeRecord where
  entryDate : ℚ
  exitDate : ℚ
  symbol : ℕ
  entryPrice : ℚ
  exitPrice : ℚ
  size : ℚ
  pnl : ℚ
  ret : ℚ
  exitReason : String
deriving DecidableEq

/-- pnl_pct (strategy line 166): trade.pnlcomm / abs(trade.value) * 100
when trade.value is nonzero, else 0. -/
def pnlPct (e : TradeEvent) : ℚ :=
  if e.value ≠ 0 then e.pnlcomm / |e.value| * 100 else 0

/-- exit_price (strategy line 171): trade.price + trade.pnl / trade.size
when trade.size is nonzero, else trade.price. -/
def tradeExitPrice (e : TradeEvent) : ℚ :=
  if e.size ≠ 0 then e.price + e.pnl / e.size else e.price

/-- The trade_record dict built at strategy lines 175-185. -/
def tradeRecordOf (e : TradeEvent) : TradeRecord :=
  { entryDate := e.dtopen
    exitDate := e.dtclose
    symbol := e.dataName
    entryPrice := e.price
    exitPrice := tradeExitPrice e
    size := e.size
    pnl := e.pnl
    ret := pnlPct e
    exitReason := "strategy_exit" }

/-- notify_trade (strategy lines 163-189): when the trade is closed,
append exactly one record to self.trades; otherwise do nothing. -/
def notifyTrade (trades : List TradeRecord) (e : TradeEvent) : List TradeRecord :=
  if e.isclosed then trades ++ [tradeRecordOf e] else trades

/-- One instrument's processing for bar t inside next(): indicators are
read from the price history, the broker position and total value come
from the broker oracles.  Returns the updated state and the actions
tagged with the instrument index. -/
def stepInstr (p : Params) (numDatas : ℕ) (closes : ℕ → ℕ → ℚ)
    (posOracle : ℕ → ℕ → ℤ) (valueOracle : ℕ → ℚ) (t : ℕ)
    (i : ℕ) (s : InstrState) : InstrState × List (ℕ × BrokerAction) :=
  let r := nextInstrument p (t + 1) (t + 1) s.lastReb (closes i t)
    (sma (closes i) p.trendPeriod t) (roc (closes i) p.momentumPeriod t)
    (posOracle i t) s.stance (valueOracle t) numDatas
  ({ stance := r.2.1, lastReb := r.2.2 }, r.1.map (fun a => (i, a)))

/-- One bar of the simulation: before the indicator warm-up backtrader
does not call next() at all (the strategy defines no prenext), afterwards
next() iterates the instruments in sequence (strategy lines 72-82). -/
def stepBar (p : Params) (numDatas : ℕ) (closes : ℕ → ℕ → ℚ)
    (posOracle : ℕ → ℕ → ℤ) (valueOracle : ℕ → ℚ) (t : ℕ)
    (states : List InstrState) : List InstrState × List (ℕ × BrokerAction) :=
  if t + 1 < minPeriod p then (states, [])
  else
    let rs := List.zipWith (stepInstr p numDatas closes posOracle valueOracle t)
      (List.range states.length) states
    (rs.map Prod.fst, (rs.map Prod.snd).flatten)

/-- A whole simulation run of T bars over numDatas instruments.  The
broker is the external collaborator: posOracle i t is the held size the
broker reports for instrument i at bar t, valueOracle t the total
portfolio value, tradesOracle t the close notifications delivered during
bar t.  Returns the per-instrument states, the log of submitted actions
(bar, instrument, action), and the accumulated trade records. -/
def runSim (p : Params) (numDatas : ℕ) (closes : ℕ → ℕ → ℚ)
    (posOracle : ℕ → ℕ → ℤ) (valueOracle : ℕ → ℚ)
    (tradesOracle : ℕ → List TradeEvent) :
    ℕ → List InstrState × List (ℕ × ℕ × BrokerAction) × List TradeRecord
  | 0 => (initStates numDatas, [], [])
  | t + 1 =>
    let prev := runSim p numDatas closes posOracle valueOracle tradesOracle t
    let sb := stepBar p numDatas closes posOracle valueOracle t prev.1
    (sb.1, prev.2.1 ++ sb.2.map (fun ia => (t, ia.1, ia.2)),
      (tradesOracle t).foldl notifyTrade prev.2.2)

/-- Number of instruments whose stance is long. -/
def longCount (states : List InstrState) : ℕ :=
  (states.filter (fun s => s.stance = Stance.long)).length

/-- A positive-price rate of change is always above -1, so the crash
threshold momentum < -5 used at strategy line 108 can never fire on the
ratio-valued ROC indicator. -/
lemma roc_gt_neg_one (closes : ℕ → ℚ) (period t : ℕ) (h : ∀ s, 0 < closes s) :
    -1 < roc closes period t := by
  unfold roc
  have hb := h (t - period)
  have ha := h t
  have hq : 0 < closes t / closes (t - period) := div_pos ha hb
  have : (closes t - closes (t - period)) / closes (t - period)
      = closes t / closes (t - period) - 1 := by
    rw [sub_div, div_self hb.ne']
  rw [this]
  linarith

/-- Over positive prices the momentum-crash branch of should_be_cash is
dead code: the ROC value is never below -5. -/
lemma roc_crash_dead (closes : ℕ → ℚ) (period t : ℕ) (h : ∀ s, 0 < closes s) :
    ¬ (roc closes period t < -5) := by
  have := roc_gt_neg_one closes period t h
  linarith

/-- C1: on a rebalance bar, should_be_long is exactly
(close > trend_ma * entry_threshold) AND (momentum > 0); when it holds
with stance in {cash, none} and zero held shares, the decision submits
exactly one buy sized as int((total_value / min(20, instrument_count)) *
0.95 / price) and sets the stance to long (there is no stray position to
close when zero shares are held); when should_be_long is false no buy is
ever submitted. -/
theorem hybrid_claim_C1 (p : Params) (close ma mom totalValue : ℚ)
    (posSize : ℤ) (stance : Stance) (numDatas : ℕ) :
    (shouldBeLong p close ma mom
        = (decide (ma * p.entryThreshold < close) && decide ((0 : ℚ) < mom)))
    ∧ (shouldBeLong p close ma mom = true →
        (stance = Stance.cash ∨ stance = Stance.flatNone) → posSize = 0 →
        0 < targetShares totalValue numDatas close →
        rebalancePosition p close ma mom posSize stance totalValue numDatas
          = ([BrokerAction.buy (targetShares totalValue numDatas close)],
              Stance.long)
        ∧ targetShares totalValue numDatas close
          = pyInt (totalValue / ((min 20 numDatas : ℕ) : ℚ) * (95 / 100) / close))
    ∧ (shouldBeLong p close ma mom = false →
        ∀ s : ℤ, BrokerAction.buy s
          ∉ (rebalancePosition p close ma mom posSize stance totalValue numDatas).1) := by
  refine ⟨rfl, ?_, ?_⟩
  · intro hL hs hp hts
    subst hp
    refine ⟨?_, rfl⟩
    simp [rebalancePosition, hL, enterLongPosition, hts]
  · intro hL s
    simp only [rebalancePosition, hL, Bool.false_and, Bool.false_eq_true, if_false]
    split
    · unfold exitToCash
      split <;> simp
    · simp

/-- C2: should_be_cash is exactly (close < trend_ma * exit_threshold) OR
(momentum < -5); either disjunct alone forces it, independently of the
other test; and a currently-long instrument (stance long, positive held
size) is then fully closed with its stance set to cash. -/
theorem hybrid_claim_C2 (p : Params) (close ma mom totalValue : ℚ)
    (posSize : ℤ) (stance : Stance) (numDatas : ℕ) :
    (shouldBeCash p close ma mom
        = (decide (close < ma * p.exitThreshold) || decide (mom < (-5 : ℚ))))
    ∧ (mom < -5 → shouldBeCash p close ma mom = true)
    ∧ (close < ma * p.exitThreshold → shouldBeCash p close ma mom = true)
    ∧ (stance = Stance.long → 0 < posSize → shouldBeCash p close ma mom = true →
        rebalancePosition p close ma mom posSize stance totalValue numDatas
          = ([BrokerAction.closePos], Stance.cash)) := by
  refine ⟨rfl, ?_, ?_, ?_⟩
  · intro h
    simp [shouldBeCash, bearishTrend, h]
  · intro h
    simp [shouldBeCash, bearishTrend, h]
  · intro hst hp hC
    subst hst
    have h0 : posSize ≠ 0 := by omega
    simp [rebalancePosition, h0, hC, hp, exitToCash]

/-- C6: with fewer than trend_period bars of history for the instrument,
the per-bar evaluation issues no action and leaves both the stance and
the last-rebalance marker unchanged. -/
theorem hybrid_claim_C6 (p : Params) (lenData lenSelf lastReb : ℕ)
    (close ma mom totalValue : ℚ) (posSize : ℤ) (stance : Stance)
    (numDatas : ℕ) (h : lenData < p.trendPeriod) :
    nextInstrument p lenData lenSelf lastReb close ma mom posSize stance
        totalValue numDatas = ([], stance, lastReb) := by
  simp [nextInstrument, h]

/-- C6 witness: at 100 bars of history against the default 200-bar trend
period, the evaluation is a no-op. -/
theorem hybrid_claim_C6_witness :
    nextInstrument defaultParams 100 100 0 12 10 3 0 Stance.flatNone 100000 1
      = ([], Stance.flatNone, 0) :=
  hybrid_claim_C6 defaultParams 100 100 0 12 10 3 100000 0 Stance.flatNone 1
    (by decide)

/-- C9: the guarded rebalance evaluation (cadence check plus decision) is
idempotent within one bar: running it a second time on the same bar, with
the state left by the first run and the same broker readings, emits no
action and changes nothing.  The second run is a no-op for every starting
stance, in particular for an instrument already in its target stance. -/
theorem hybrid_claim_C9 (p : Params) (lenData lenSelf lastReb : ℕ)
    (close ma mom totalValue : ℚ) (posSize : ℤ) (stance : Stance)
    (numDatas : ℕ) (h : 0 < p.rebalanceDays) :
    nextInstrument p lenData lenSelf
        (nextInstrument p lenData lenSelf lastReb close ma mom posSize stance
          totalValue numDatas).2.2
        close ma mom posSize
        (nextInstrument p lenData lenSelf lastReb close ma mom posSize stance
          totalValue numDatas).2.1
        totalValue numDatas
      = ([],
         (nextInstrument p lenData lenSelf lastReb close ma mom posSize stance
           totalValue numDatas).2.1,
         (nextInstrument p lenData lenSelf lastReb close ma mom posSize stance
           totalValue numDatas).2.2) := by
  by_cases h1 : lenData < p.trendPeriod
  · simp [nextInstrument, h1]
  · by_cases h2 : (p.rebalanceDays : ℤ) ≤ (lenSelf : ℤ) - (lastReb : ℤ)
    · have h3 : ¬ ((p.rebalanceDays : ℤ) ≤ (lenSelf : ℤ) - (lenSelf : ℤ)) := by
        omega
      have h4 : p.rebalanceDays ≠ 0 := by omega
      simp [nextInstrument, h1, h2, h3, h4]
    · simp [nextInstrument, h1, h2]

/-- C9 witness: a concrete second evaluation on the same bar is a no-op. -/
theorem hybrid_claim_C9_witness :
    nextInstrument defaultParams 300 300
        (nextInstrument defaultParams 300 300 0 12 10 3 0 Stance.flatNone
          100000 1).2.2
        12 10 3 0
        (nextInstrument defaultParams 300 300 0 12 10 3 0 Stance.flatNone
          100000 1).2.1
        100000 1
      = ([],
         (nextInstrument defaultParams 300 300 0 12 10 3 0 Stance.flatNone
           100000 1).2.1,
         (nextInstrument defaultParams 300 300 0 12 10 3 0 Stance.flatNone
           100000 1).2.2) :=
  hybrid_claim_C9 defaultParams 300 300 0 12 10 3 100000 0 Stance.flatNone 1
    (by decide)

/-- C1 witness: with one instrument, total value 100000, close 12, trend
moving average 10 and momentum 3, a buy of int(100000 * 0.95 / 12) = 7916
shares is submitted and the stance becomes long. -/
theorem hybrid_claim_C1_witness :
    rebalancePosition defaultParams 12 10 3 0 Stance.flatNone 100000 1
      = ([BrokerAction.buy 7916], Stance.long) := by
  have hmin : (min 20 1 : ℕ) = 1 := by decide
  have hts : targetShares 100000 1 12 = 7916 := by
    norm_num [targetShares, pyInt, hmin]
  have h := (hybrid_claim_C1 defaultParams 12 10 3 100000 0 Stance.flatNone 1).2.1
    (by norm_num [shouldBeLong, bullishTrend, defaultParams]) (Or.inr rfl) rfl
    (by rw [hts]; norm_num)
  rw [h.1, hts]

/-- C2 witness: a long instrument holding 5 shares with close 9 below the
exit band 9.9 and momentum -6 is fully closed and moved to cash. -/
theorem hybrid_claim_C2_witness :
    rebalancePosition defaultParams 9 10 (-6) 5 Stance.long 100000 1
      = ([BrokerAction.closePos], Stance.cash) :=
  (hybrid_claim_C2 defaultParams 9 10 (-6) 100000 5 Stance.long 1).2.2.2 rfl
    (by decide)
    (by
      simp only [shouldBeCash, bearishTrend, defaultParams, Bool.or_eq_true,
        decide_eq_true_eq]
      left
      norm_num)

/-- C7 counterexample: close 9.8 against trend moving average 10 makes
should_be_cash true and should_be_long false, the stance is long but zero
shares are held; _exit_to_cash then does nothing, so the stance stays
long instead of being set to cash as the claim requires. -/
theorem hybrid_claim_C7_cex :
    shouldBeLong defaultParams (49/5) 10 0 = false
    ∧ shouldBeCash defaultParams (49/5) 10 0 = true
    ∧ rebalancePosition defaultParams (49/5) 10 0 0 Stance.long 100000 1
        = ([], Stance.long) := by
  have hL : shouldBeLong defaultParams (49/5) 10 0 = false := by
    simp only [shouldBeLong, bullishTrend, defaultParams, Bool.and_eq_false_iff,
      decide_eq_false_iff_not]
    right
    norm_num
  have hC : shouldBeCash defaultParams (49/5) 10 0 = true := by
    simp only [shouldBeCash, bearishTrend, defaultParams, Bool.or_eq_true,
      decide_eq_true_eq]
    left
    norm_num
  refine ⟨hL, hC, ?_⟩
  simp [rebalancePosition, hL, hC, exitToCash]

/-- C7 amended: when should_be_long is false, should_be_cash is true and
the instrument is long or holds shares, the code closes the full position
and sets the stance to cash only when held shares are positive; with zero
held shares it submits nothing and leaves the stance unchanged. -/
theorem hybrid_claim_C7_amended (p : Params) (close ma mom totalValue : ℚ)
    (posSize : ℤ) (stance : Stance) (numDatas : ℕ)
    (hL : shouldBeLong p close ma mom = false)
    (hC : shouldBeCash p close ma mom = true)
    (hs : stance = Stance.long ∨ 0 < posSize) :
    (0 < posSize →
        rebalancePosition p close ma mom posSize stance totalValue numDatas
          = ([BrokerAction.closePos], Stance.cash))
    ∧ (posSize ≤ 0 →
        rebalancePosition p close ma mom posSize stance totalValue numDatas
          = ([], stance)) := by
  constructor
  · intro hp
    simp [rebalancePosition, hL, hC, exitToCash, hp]
  · intro hp
    have hst : stance = Stance.long := by
      rcases hs with h | h
      · exact h
      · omega
    subst hst
    have hnp : ¬ (0 < posSize) := by omega
    simp [rebalancePosition, hL, hC, exitToCash, hnp]

/-- C7 witness: a long instrument actually holding 3 shares is closed and
moved to cash under the amended statement. -/
theorem hybrid_claim_C7_witness :
    rebalancePosition defaultParams (49/5) 10 0 3 Stance.long 100000 1
      = ([BrokerAction.closePos], Stance.cash) :=
  (hybrid_claim_C7_amended defaultParams (49/5) 10 0 100000 3 Stance.long 1
    (by
      simp only [shouldBeLong, bullishTrend, defaultParams, Bool.and_eq_false_iff,
        decide_eq_false_iff_not]
      right
      norm_num)
    (by
      simp only [shouldBeCash, bearishTrend, defaultParams, Bool.or_eq_true,
        decide_eq_true_eq]
      left
      norm_num)
    (Or.inl rfl)).1 (by decide)

/-- C4 counterexample: at price 0 the sizing computation of
_enter_long_position raises a ZeroDivisionError (modelled as no result)
instead of returning 0 as the claim states for every price ≤ 0. -/
theorem hybrid_claim_C4_cex :
    sizeResult 100000 20 0 = Option.none
    ∧ (Option.none : Option ℤ) ≠ Option.some 0 := by
  constructor
  · simp [sizeResult]
  · simp

/-- C4 amended: with at least one instrument and nonnegative total value,
for positive price the sizer returns exactly
floor((total_value / min(20, instrument_count)) * 0.95 / price) (the
investable fraction is the hard-coded 0.95); for negative price it
returns a nonpositive count, so no order is submitted; price = 0 raises
instead of returning 0. -/
theorem hybrid_claim_C4_amended (totalValue price : ℚ) (numDatas : ℕ)
    (hn : 0 < numDatas) (htv : 0 ≤ totalValue) :
    (0 < price →
        sizeResult totalValue numDatas price
          = Option.some ⌊totalValue / ((min 20 numDatas : ℕ) : ℚ) * (95 / 100) / price⌋)
    ∧ (price < 0 →
        sizeResult totalValue numDatas price
          = Option.some (targetShares totalValue numDatas price)
        ∧ targetShares totalValue numDatas price ≤ 0) := by
  have hm : ¬ (min 20 numDatas = 0) := by omega
  constructor
  · intro hp
    have hp0 : price ≠ 0 := ne_of_gt hp
    have hq : 0 ≤ totalValue / ((min 20 numDatas : ℕ) : ℚ) * (95 / 100) / price := by
      positivity
    unfold sizeResult targetShares pyInt
    rw [if_neg (not_or.mpr ⟨hm, hp0⟩), if_pos hq]
  · intro hp
    have hp0 : price ≠ 0 := ne_of_lt hp
    refine ⟨by simp [sizeResult, hm, hp0], ?_⟩
    have hnum : 0 ≤ totalValue / ((min 20 numDatas : ℕ) : ℚ) * (95 / 100) := by
      positivity
    have hq : totalValue / ((min 20 numDatas : ℕ) : ℚ) * (95 / 100) / price ≤ 0 :=
      div_nonpos_iff.mpr (Or.inl ⟨hnum, hp.le⟩)
    unfold targetShares pyInt
    split_ifs with h0
    · calc ⌊totalValue / ((min 20 numDatas : ℕ) : ℚ) * (95 / 100) / price⌋
          ≤ ⌊(0 : ℚ)⌋ := Int.floor_le_floor hq
        _ = 0 := Int.floor_zero
    · exact Int.ceil_le.mpr (by exact_mod_cast hq)

/-- C4 witness: the sizing round-trip from the spec,
size(100000, 20, 0.95, 23.21) = floor((100000/20)*0.95/23.21) = 204. -/
theorem hybrid_claim_C4_witness :
    sizeResult 100000 20 (2321/100) = Option.some 204 := by
  have h := (hybrid_claim_C4_amended 100000 (2321/100) 20 (by norm_num)
    (by norm_num)).1 (by norm_num)
  rw [h]
  have hmin : (min 20 20 : ℕ) = 20 := by decide
  norm_num [hmin]

/-- Price history with a 6 percent decline over the 60-bar momentum
lookback: 100 until bar 59, then 94. -/
def crashCloses : ℕ → ℚ := fun t => if t < 60 then 100 else 94

/-- C5: on a 6 percent decline the indicator the code builds
(backtrader ROC, a plain ratio) evaluates to -3/50 = -0.06, while the
spec's percentage momentum evaluates to -6; the two differ, the spec
value trips the momentum < -5 crash override, the code value does not,
and should_be_cash flips accordingly on an otherwise non-bearish bar. -/
theorem hybrid_claim_C5_eval :
    roc crashCloses 60 60 = -3/50
    ∧ momentumSpec crashCloses 60 60 = -6
    ∧ momentumSpec crashCloses 60 60 < -5
    ∧ ¬ (roc crashCloses 60 60 < -5)
    ∧ roc crashCloses 60 60 ≠ momentumSpec crashCloses 60 60
    ∧ shouldBeCash defaultParams 94 90 (roc crashCloses 60 60) = false
    ∧ shouldBeCash defaultParams 94 90 (momentumSpec crashCloses 60 60) = true := by
  have h1 : roc crashCloses 60 60 = -3/50 := by
    norm_num [roc, crashCloses]
  have h2 : momentumSpec crashCloses 60 60 = -6 := by
    norm_num [momentumSpec, crashCloses]
  refine ⟨h1, h2, by rw [h2]; norm_num, by rw [h1]; norm_num,
    by rw [h1, h2]; norm_num, ?_, ?_⟩
  · rw [h1]
    simp only [shouldBeCash, bearishTrend, defaultParams, Bool.or_eq_false_iff,
      decide_eq_false_iff_not]
    constructor <;> norm_num
  · rw [h2]
    simp only [shouldBeCash, bearishTrend, defaultParams, Bool.or_eq_true,
      decide_eq_true_eq]
    right
    norm_num

/-- Concrete closed-trade notification used as test vector: entry value
100, gross pnl 10, pnl net of the 0.1 percent commission 9.8. -/
def cexTrade : TradeEvent :=
  { isclosed := true
    pnl := 10
    pnlcomm := 49/5
    value := 100
    price := 50
    size := 2
    dtopen := 1
    dtclose := 5
    dataName := 0 }

/-- C8 counterexample: with a nonzero commission the recorded
return_percent comes from pnlcomm and is 9.8, while the recorded
profit_and_loss field divided by the absolute entry value times 100 is
10, so return_percent is not profit_and_loss / abs(entry value) * 100. -/
theorem hybrid_claim_C8_cex :
    (tradeRecordOf cexTrade).ret = 49/5
    ∧ (tradeRecordOf cexTrade).pnl / |cexTrade.value| * 100 = 10
    ∧ (tradeRecordOf cexTrade).ret
        ≠ (tradeRecordOf cexTrade).pnl / |cexTrade.value| * 100 := by
  refine ⟨?_, ?_, ?_⟩ <;> norm_num [tradeRecordOf, pnlPct, cexTrade]

/-- C8 amended: on every closed-trade notification exactly one record is
appended (the list is otherwise untouched, so records are only ever
appended), its exit_reason tag is always the fixed string, and its
return_percent equals the commission-adjusted profit and loss (pnlcomm,
not the recorded gross pnl) divided by the absolute entry value times
100, with the convention 0 when the entry value is 0; a notification of a
trade that is not closed appends nothing. -/
theorem hybrid_claim_C8_amended (trades : List TradeRecord) (e : TradeEvent) :
    (e.isclosed = true → notifyTrade trades e = trades ++ [tradeRecordOf e])
    ∧ (e.isclosed = true → e.value ≠ 0 →
        (tradeRecordOf e).ret = e.pnlcomm / |e.value| * 100)
    ∧ (e.isclosed = true → e.value = 0 → (tradeRecordOf e).ret = 0)
    ∧ (tradeRecordOf e).exitReason = "strategy_exit"
    ∧ (e.isclosed = false → notifyTrade trades e = trades) := by
  refine ⟨?_, ?_, ?_, rfl, ?_⟩
  · intro h
    simp [notifyTrade, h]
  · intro _ hv
    simp [tradeRecordOf, pnlPct, hv]
  · intro _ hv
    simp [tradeRecordOf, pnlPct, hv]
  · intro h
    simp [notifyTrade, h]

/-- C8 witness: appending the concrete closed trade to an empty log
yields exactly one record. -/
theorem hybrid_claim_C8_witness :
    notifyTrade [] cexTrade = [tradeRecordOf cexTrade] :=
  (hybrid_claim_C8_amended [] cexTrade).1 rfl

/-- Broker oracle reporting zero held shares everywhere (orders fill on
later bars in the external engine). -/
def zeroPos : ℕ → ℕ → ℤ := fun _ _ => 0

/-- Broker oracle reporting a constant total portfolio value. -/
def constValue : ℕ → ℚ := fun _ => 1000000

/-- Broker oracle delivering no close notifications. -/
def noTrades : ℕ → List TradeEvent := fun _ => []

/-- Test parameters exercising the cap with a short warm-up: 2-bar trend
window, 1-bar momentum, rebalance every bar, the default thresholds. -/
def p21 : Params :=
  { trendPeriod := 2
    momentumPeriod := 1
    rebalanceDays := 1
    positionSize := 95 / 100
    cashReserve := 5 / 100
    entryThreshold := 101 / 100
    exitThreshold := 99 / 100
    volatilityLookback := 1
    targetVolatility := 15 / 100 }

/-- Identical price path for every instrument: 10 on the first bar, 13
afterwards, so every instrument is bullish with positive momentum. -/
def closes21 : ℕ → ℕ → ℚ := fun _ t => if t = 0 then 10 else 13

/-- Mapping first components of a zipWith against a replicated state is
itself a replicate when the function's first component ignores the index. -/
lemma zipWith_map_fst_replicate {α β γ : Type} (g : ℕ → α → β × γ) (s0 : α)
    (r : β) (hg : ∀ i, (g i s0).1 = r) :
    ∀ l : List ℕ,
      (List.zipWith g l (List.replicate l.length s0)).map Prod.fst
        = List.replicate l.length r := by
  intro l
  induction l with
  | nil => rfl
  | cons a l ih =>
    simp only [List.length_cons, List.replicate_succ, List.zipWith_cons_cons,
      List.map_cons, ih, hg a]

/-- Counting long stances in a replicated long state. -/
lemma longCount_replicate (n : ℕ) (s : InstrState) (h : s.stance = Stance.long) :
    longCount (List.replicate n s) = n := by
  induction n with
  | zero => rfl
  | succ n ih =>
    simp [longCount, List.replicate_succ, List.filter_cons, h] at ih ⊢

/-- Every instrument, regardless of its index, enters long with a buy of
int((1000000 / 20) * 0.95 / 13) = 3653 shares on bar 1 of the cap
scenario. -/
lemma stepInstr_p21_eval (i : ℕ) :
    stepInstr p21 21 closes21 zeroPos constValue 1 i
        { stance := Stance.flatNone, lastReb := 0 }
      = ({ stance := Stance.long, lastReb := 2 }, [(i, BrokerAction.buy 3653)]) := by
  have hsma : sma (closes21 i) 2 1 = 23 / 2 := by
    norm_num [sma, Finset.sum_range_succ, closes21]
  have hroc : roc (closes21 i) 1 1 = 3 / 10 := by
    norm_num [roc, closes21]
  have hmin : (min 20 21 : ℕ) = 20 := by decide
  have hts : targetShares 1000000 21 13 = 3653 := by
    norm_num [targetShares, pyInt, hmin]
  have hsbl : shouldBeLong p21 13 (23 / 2) (3 / 10) = true := by
    norm_num [shouldBeLong, bullishTrend, p21]
  have hclose : closes21 i 1 = 13 := by norm_num [closes21]
  simp only [stepInstr, p21, zeroPos, constValue]
  simp only [show (1 : ℕ) + 1 = 2 from rfl, hclose]
  simp only [show p21.trendPeriod = 2 from rfl] at hsma
  simp only [hsma, hroc, nextInstrument, rebalancePosition, hsbl,
    enterLongPosition, hts]
  simp only [p21] at hsbl
  simp [hsbl]

/-- C3: concrete run violating the cap: 21 instruments with identical
bullish histories are all moved to stance long on the same bar, so 21
instruments are simultaneously long although min(20, 21) = 20; the
min(20, instrument_count) quantity only enters the sizing denominator and
is never enforced as a count cap. -/
theorem hybrid_claim_C3_eval :
    longCount (runSim p21 21 closes21 zeroPos constValue noTrades 2).1 = 21
    ∧ min 20 21
        < longCount (runSim p21 21 closes21 zeroPos constValue noTrades 2).1 := by
  have h1 : (runSim p21 21 closes21 zeroPos constValue noTrades 1).1
      = initStates 21 := by
    simp [runSim, stepBar, minPeriod, p21]
  have h2 : (runSim p21 21 closes21 zeroPos constValue noTrades 2).1
      = List.replicate 21 { stance := Stance.long, lastReb := 2 } := by
    have hz := zipWith_map_fst_replicate
      (stepInstr p21 21 closes21 zeroPos constValue 1)
      { stance := Stance.flatNone, lastReb := 0 }
      { stance := Stance.long, lastReb := 2 }
      (fun i => by rw [stepInstr_p21_eval i]) (List.range 21)
    simp only [List.length_range] at hz
    show (runSim p21 21 closes21 zeroPos constValue noTrades (1 + 1)).1 = _
    simp only [runSim, h1]
    simp only [stepBar, minPeriod, p21, initStates]
    norm_num
    simpa using hz
  refine ⟨?_, ?_⟩
  · rw [h2, longCount_replicate 21 _ rfl]
  · rw [h2, longCount_replicate 21 _ rfl]
    decide

/-- C10: the volatility indicator parameters are dead inputs of the
decision logic: as long as the volatility lookback stays within the trend
period (so the indicator warm-up is still governed by the trend window),
two runs differing only in volatility_lookback and target_volatility
produce identical action logs, stance sequences and trade records. -/
theorem hybrid_claim_C10 (p : Params) (v : ℕ) (tvol : ℚ) (numDatas : ℕ)
    (closes : ℕ → ℕ → ℚ) (posOracle : ℕ → ℕ → ℤ) (valueOracle : ℕ → ℚ)
    (tradesOracle : ℕ → List TradeEvent) (T : ℕ)
    (h1 : p.volatilityLookback ≤ p.trendPeriod) (h2 : v ≤ p.trendPeriod) :
    runSim { p with volatilityLookback := v, targetVolatility := tvol }
        numDatas closes posOracle valueOracle tradesOracle T
      = runSim p numDatas closes posOracle valueOracle tradesOracle T := by
  have hmin : minPeriod { p with volatilityLookback := v, targetVolatility := tvol }
      = minPeriod p := by
    simp only [minPeriod]
    rw [Nat.max_eq_left (le_trans h2 (Nat.le_max_left _ _)),
      Nat.max_eq_left (le_trans h1 (Nat.le_max_left _ _))]
  have hstep : ∀ t states,
      stepBar { p with volatilityLookback := v, targetVolatility := tvol }
          numDatas closes posOracle valueOracle t states
        = stepBar p numDatas closes posOracle valueOracle t states := by
    intro t states
    have hinstr : stepInstr { p with volatilityLookback := v, targetVolatility := tvol }
        numDatas closes posOracle valueOracle t
        = stepInstr p numDatas closes posOracle valueOracle t := rfl
    unfold stepBar
    rw [hmin, hinstr]
  induction T with
  | zero => rfl
  | succ T ih =>
    simp only [runSim]
    rw [ih, hstep]

/-- C10 witness: changing only the volatility parameters leaves a
concrete 3-bar single-instrument run unchanged. -/
theorem hybrid_claim_C10_witness :
    runSim { defaultParams with volatilityLookback := 30, targetVolatility := 1/10 }
        1 (fun _ _ => 10) zeroPos constValue noTrades 3
      = runSim defaultParams 1 (fun _ _ => 10) zeroPos constValue noTrades 3 :=
  hybrid_claim_C10 defaultParams 30 (1/10) 1 (fun _ _ => 10) zeroPos constValue
    noTrades 3 (by decide) (by decide)
